import Mathlib

/-!
Shallow embedding of the sigust key-management frontend
(`src/lib/shared.ts`, `src/lib/types.ts`, `GenerateKey.svelte`,
`SignView.svelte`, `VerifyView.svelte`) together with a spec-modelled
signing core, and proofs of the specification claims about them.
-/

/-- `KeyInfo` from `src/lib/types.ts`: descriptive information about a key. -/
structure KeyInfo where
  keyId : String
  name : String
  algorithm : String
  createdAt : String
deriving DecidableEq

/-- `VerificationResult` from `src/lib/types.ts`: outcome of a verification
attempt; `errorMessage` is optional. -/
structure VerificationResult where
  isValid : Bool
  errorMessage : Option String
deriving DecidableEq

/-- The string literals of the TS union type `SignatureAlgorithm`
(`src/lib/types.ts`). -/
def signatureAlgorithmValues : List String :=
  ["RSA-PKCS1-SHA256", "ECDSA-P256-SHA256", "Ed25519"]

/-- The string literals of the TS union type `SignatureFormat`
(`src/lib/types.ts`), which has the single value `'detached'`. -/
def signatureFormatValues : List String := ["detached"]

/-- `SigningOptions` from `src/lib/types.ts`. -/
structure SigningOptions where
  format : String
deriving DecidableEq

/-- One entry of `supportedAlgorithmsForGeneration` (`src/lib/types.ts`). -/
structure AlgorithmOption where
  value : String
  label : String
deriving DecidableEq

/-- `supportedAlgorithmsForGeneration` from `src/lib/types.ts`, verbatim. -/
def supportedAlgorithmsForGeneration : List AlgorithmOption :=
  [⟨"RSA-PKCS1-SHA256", "RSA 2048 (PKCS#1 SHA-256)"⟩,
   ⟨"ECDSA-P256-SHA256", "ECDSA P-256 (SHA-256)"⟩,
   ⟨"Ed25519", "Ed25519"⟩]

/-- JS `String.prototype.trim`: drop leading and trailing whitespace.
Implemented structurally over the character list so that it evaluates by
kernel reduction. -/
def jsTrim (s : String) : String :=
  ⟨((s.data.dropWhile Char.isWhitespace).reverse.dropWhile Char.isWhitespace).reverse⟩

/-- A value passed as an argument of a Tauri `invoke` call: either a plain
string or a nested `SigningOptions` object. -/
inductive ArgValue where
  | str : String → ArgValue
  | opts : SigningOptions → ArgValue
deriving DecidableEq

/-- One `invoke` request: the command name and the named-argument object,
kept as the ordered list of (property name, value) pairs of the TS object
literal at the call site. -/
structure InvokeRequest where
  cmd : String
  args : List (String × ArgValue)
deriving DecidableEq

/-- The ordered property names of an optional request's argument object. -/
def requestArgNames : Option InvokeRequest → Option (List String)
  | none => none
  | some r => some (r.args.map Prod.fst)

/-- The component state of `GenerateKey.svelte` read by `generateKey`. -/
structure GenState where
  keyName : String
  selectedAlgorithm : String
  password : String
  confirmPassword : String
deriving DecidableEq

/-- `generateKey` from `GenerateKey.svelte`, up to the `invoke` call: given
the form state it either produces the `generate_key_pair` request (second
component `none`) or stops with a local error message and no request.
The three guards are in source order: password mismatch, empty trimmed
name (JS `!keyName.trim()`), empty password (JS `!password`). -/
def generateKeyRequest (s : GenState) : Option InvokeRequest × Option String :=
  if s.password ≠ s.confirmPassword then
    (none, some "Passwords do not match.")
  else if jsTrim s.keyName = "" then
    (none, some "Key name cannot be empty.")
  else if s.password = "" then
    (none, some "Password cannot be empty.")
  else
    (some ⟨"generate_key_pair",
      [("name", .str (jsTrim s.keyName)),
       ("algStr", .str s.selectedAlgorithm),
       ("password", .str s.password)]⟩,
     none)

/-- A concrete valid `GenerateKey` form state, used to exhibit a request. -/
def gs0 : GenState := ⟨"  Alice  ", "Ed25519", "pw", "pw"⟩

/-- The request `generateKeyRequest` produces from `gs0`. -/
def gr0 : InvokeRequest :=
  ⟨"generate_key_pair",
    [("name", .str "Alice"), ("algStr", .str "Ed25519"), ("password", .str "pw")]⟩

/-- The component state of `VerifyView.svelte` read and written by `verify`. -/
structure VerifyState where
  keys : List KeyInfo
  selectedKeyId : Option String
  documentPath : Option String
  signaturePath : Option String
  loadingKeys : Bool
  verifying : Bool
  error : Option String
  verificationResult : Option VerificationResult
deriving DecidableEq

/-- Outcome of the awaited `verify_signature` invocation: a returned
`VerificationResult`, or a thrown error with its message. -/
inductive VerifyOutcome where
  | ok : VerificationResult → VerifyOutcome
  | err : String → VerifyOutcome
deriving DecidableEq

/-- `verify` from `VerifyView.svelte` as a state transition. The guard
mirrors JS `!documentPath || !signaturePath || !selectedKeyId` (null or
empty string are both falsy); when the guard passes, the `verify_signature`
request (returned as the second component) is issued and the outcome of the
invocation updates the state: a returned result is stored with `error` left
null, a thrown error sets `error` and leaves `verificationResult` null. -/
def verify (s : VerifyState) (o : VerifyOutcome) : VerifyState × Option InvokeRequest :=
  match s.documentPath, s.signaturePath, s.selectedKeyId with
  | some dp, some sp, some kid =>
    if dp = "" ∨ sp = "" ∨ kid = "" then
      ({ s with error := some "Please select the document, signature, and key.",
                verificationResult := none }, none)
    else
      let req : InvokeRequest := ⟨"verify_signature",
        [("documentPath", .str dp), ("signaturePath", .str sp), ("keyId", .str kid)]⟩
      match o with
      | .ok r =>
          ({ s with verifying := false, error := none, verificationResult := some r }, some req)
      | .err m =>
          ({ s with verifying := false,
                    error := some ("Verification process failed: " ++ m),
                    verificationResult := none }, some req)
  | _, _, _ =>
      ({ s with error := some "Please select the document, signature, and key.",
                verificationResult := none }, none)

/-- The `$effect` of `SignView.svelte`: once loading is over, a non-empty
key list with no selection (strict `=== null`) selects the first key. -/
def signViewEffect (loadingKeys : Bool) (keys : List KeyInfo)
    (selectedKeyId : Option String) : Option String :=
  match loadingKeys, keys, selectedKeyId with
  | false, k :: _, none => some k.keyId
  | _, _, _ => selectedKeyId

/-- The `$effect` of `VerifyView.svelte`: same auto-selection as the sign
view, followed by a reset of the selection to null when loading is over and
the key list is empty. -/
def verifyViewEffect (loadingKeys : Bool) (keys : List KeyInfo)
    (selectedKeyId : Option String) : Option String :=
  let sel1 :=
    match loadingKeys, keys, selectedKeyId with
    | false, k :: _, none => some k.keyId
    | _, _, _ => selectedKeyId
  match loadingKeys, keys with
  | false, [] => none
  | _, _ => sel1

/-- The component state of `SignView.svelte` read and written by
`signDocument`. -/
structure SignState where
  keys : List KeyInfo
  selectedKeyId : Option String
  documentPath : Option String
  password : String
  loadingKeys : Bool
  signing : Bool
  error : Option String
  successMessage : Option String
deriving DecidableEq

/-- Outcome of the awaited `sign_document` invocation: resolution with no
payload, or a thrown error with its message. -/
inductive SignOutcome where
  | ok : SignOutcome
  | err : String → SignOutcome
deriving DecidableEq

/-- `signDocument` from `SignView.svelte` as a state transition.
`outputPathChoice` is the result of the save dialog (`none` when the user
cancels); the guards mirror JS `!documentPath || !selectedKeyId`,
`!password` and `!outputPath`. The issued `sign_document` request, if any,
is the second component. -/
def signDocument (s : SignState) (outputPathChoice : Option String) (o : SignOutcome) :
    SignState × Option InvokeRequest :=
  match s.documentPath, s.selectedKeyId with
  | some dp, some kid =>
    if dp = "" ∨ kid = "" then
      ({ s with error := some "Please select a document and a key." }, none)
    else if s.password = "" then
      ({ s with error := some "Please enter the key password." }, none)
    else
      match outputPathChoice with
      | some op =>
        if op = "" then
          ({ s with signing := false, error := none, successMessage := none }, none)
        else
          let req : InvokeRequest := ⟨"sign_document",
            [("documentPath", ArgValue.str dp), ("keyId", ArgValue.str kid),
             ("password", ArgValue.str s.password), ("outputPath", ArgValue.str op),
             ("options", ArgValue.opts ⟨"detached"⟩)]⟩
          match o with
          | .ok =>
            ({ s with signing := false, error := none,
                      successMessage :=
                        some ("Document signed successfully! Signature saved to: " ++ op),
                      password := "" }, some req)
          | .err m =>
            ({ s with signing := false, successMessage := none,
                      error := some ("Signing failed: " ++ m) }, some req)
      | none => ({ s with signing := false, error := none, successMessage := none }, none)
  | _, _ => ({ s with error := some "Please select a document and a key." }, none)

/-- The value type of `lastSelectedKey` in `src/lib/shared.ts`:
`{ index: number; info: KeyInfo } | null` with the `null` case carried by
`Option` at the use sites. -/
structure SelectedKey where
  index : Nat
  info : KeyInfo
deriving DecidableEq

/-- One evaluation of the `$derived.by` expression of `lastSelectedKey`
(`src/lib/shared.ts`): `prev` is the previous value the expression reads
through its self-reference (null and undefined both map to `none`), `keys`
is the current `shared.keys`. -/
def lastSelectedKeyStep (prev : Option SelectedKey) (keys : List KeyInfo) :
    Option SelectedKey :=
  match prev with
  | none => none
  | some last =>
    if keys.length = 0 ∨ keys.length ≤ last.index then none
    else
      match keys.get? last.index with
      | none => none
      | some k => if k.keyId ≠ last.info.keyId then none else some ⟨last.index, k⟩

/-- Modelled from the spec: the Rust signing core (key store, envelope
crypto, algorithm back ends) is not among the provided source files, only
the frontend invoking it. A key record per the spec holds the identifier,
name, algorithm and the password that decrypts the private-key envelope;
the key material itself is abstracted away. -/
structure KeyRecord where
  keyId : String
  name : String
  algorithm : String
  password : String
deriving DecidableEq

/-- Modelled from the spec: `get(keyId)` of the Key Store, the lookup of a
record by identifier. -/
def findRecord (records : List KeyRecord) (keyId : String) : Option KeyRecord :=
  records.find? (fun r => r.keyId == keyId)

/-- Modelled from the spec: the content of a detached signature file,
abstracted as the identity of the signing key together with the exact
document bytes that were signed — verification succeeds exactly when the
same key and unmodified document are presented. -/
structure SigBytes where
  signerKeyId : String
  signedDoc : List Nat
deriving DecidableEq

/-- Modelled from the spec: the infrastructural error kinds of the signing
core that matter for the round-trip property. -/
inductive CoreError where
  | keyNotFound
  | invalidPassword
deriving DecidableEq

/-- Modelled from the spec: `sign_document` of the signing engine — look up
the record (`KeyNotFound` if absent), check the password against the
envelope (`InvalidPassword` on mismatch), and produce the detached
signature over the document bytes. File paths are abstracted by the byte
content read from or written to them. -/
def sign_document (records : List KeyRecord) (documentBytes : List Nat)
    (keyId password : String) : Except CoreError SigBytes :=
  match findRecord records keyId with
  | none => .error .keyNotFound
  | some r =>
    if password = r.password then .ok ⟨r.keyId, documentBytes⟩
    else .error .invalidPassword

/-- Modelled from the spec: `verify_signature` of the signing engine — look
up the record (`KeyNotFound` if absent, no password needed), then return a
successful `VerificationResult`: `isValid = true` when the signature was
produced by this key over exactly these document bytes, otherwise
`isValid = false` with a descriptive reason. -/
def verify_signature (records : List KeyRecord) (documentBytes : List Nat)
    (signatureBytes : SigBytes) (keyId : String) : Except CoreError VerificationResult :=
  match findRecord records keyId with
  | none => .error .keyNotFound
  | some r =>
    if signatureBytes.signerKeyId = r.keyId ∧ signatureBytes.signedDoc = documentBytes then
      .ok ⟨true, none⟩
    else
      .ok ⟨false, some "Signature does not match the document and key"⟩

/-- A concrete key list entry for witnesses. -/
def k0 : KeyInfo := ⟨"id-1", "A", "Ed25519", "2025-01-01T00:00:00Z"⟩

/-- A concrete `VerifyView` state with all three inputs chosen. -/
def vs0 : VerifyState :=
  ⟨[k0], some "id-1", some "/doc.txt", some "/doc.txt.sig", false, false, none, none⟩

/-- The request `verify` issues from `vs0`. -/
def vreq0 : InvokeRequest :=
  ⟨"verify_signature",
    [("documentPath", .str "/doc.txt"), ("signaturePath", .str "/doc.txt.sig"),
     ("keyId", .str "id-1")]⟩

/-- A concrete `SignView` state with document and key chosen. -/
def ss0 : SignState :=
  ⟨[k0], some "id-1", some "/doc.txt", "pw", false, false, none, none⟩

/-- The request `signDocument` issues from `ss0` with output path
`/doc.txt.sig`. -/
def sreq0 : InvokeRequest :=
  ⟨"sign_document",
    [("documentPath", .str "/doc.txt"), ("keyId", .str "id-1"),
     ("password", .str "pw"), ("outputPath", .str "/doc.txt.sig"),
     ("options", .opts ⟨"detached"⟩)]⟩

/-- A concrete key record for the spec-modelled core. -/
def rec0 : KeyRecord := ⟨"id-1", "A", "Ed25519", "pw"⟩

/-- A concrete one-record store for the spec-modelled core. -/
def records0 : List KeyRecord := [rec0]

/-- Claim C7: the set of algorithms offered for generation and the set of
values of the `SignatureAlgorithm` type are both exactly
RSA-PKCS1-SHA256, ECDSA-P256-SHA256, Ed25519. -/
theorem c7_algorithm_variants :
    supportedAlgorithmsForGeneration.map AlgorithmOption.value = signatureAlgorithmValues ∧
    signatureAlgorithmValues = ["RSA-PKCS1-SHA256", "ECDSA-P256-SHA256", "Ed25519"] := by
  constructor <;> rfl

/-- Claim C4: every `generate_key_pair` request carries the trimmed,
non-empty name and a non-empty password; an empty or whitespace-only name,
an empty password, or mismatched password fields yield a local error
message and no request at all. -/
theorem c4_generate_key_validation (s : GenState) :
    (∀ r, (generateKeyRequest s).fst = some r →
      r.cmd = "generate_key_pair" ∧
      r.args = [("name", .str (jsTrim s.keyName)),
                ("algStr", .str s.selectedAlgorithm),
                ("password", .str s.password)] ∧
      jsTrim s.keyName ≠ "" ∧ s.password ≠ "") ∧
    ((jsTrim s.keyName = "" ∨ s.password = "" ∨ s.password ≠ s.confirmPassword) →
      (generateKeyRequest s).fst = none ∧ (generateKeyRequest s).snd ≠ none) := by
  by_cases hmm : s.password = s.confirmPassword
  · by_cases hname : jsTrim s.keyName = ""
    · have hreq : generateKeyRequest s = (none, some "Key name cannot be empty.") := by
        unfold generateKeyRequest
        rw [if_neg (not_not_intro hmm), if_pos hname]
      rw [hreq]
      exact ⟨fun r hr => by simp at hr, fun _ => ⟨rfl, by simp⟩⟩
    · by_cases hpw : s.password = ""
      · have hreq : generateKeyRequest s = (none, some "Password cannot be empty.") := by
          unfold generateKeyRequest
          rw [if_neg (not_not_intro hmm), if_neg hname, if_pos hpw]
        rw [hreq]
        exact ⟨fun r hr => by simp at hr, fun _ => ⟨rfl, by simp⟩⟩
      · have hreq : generateKeyRequest s =
            (some ⟨"generate_key_pair",
              [("name", .str (jsTrim s.keyName)),
               ("algStr", .str s.selectedAlgorithm),
               ("password", .str s.password)]⟩, none) := by
          unfold generateKeyRequest
          rw [if_neg (not_not_intro hmm), if_neg hname, if_neg hpw]
        rw [hreq]
        refine ⟨fun r hr => ?_, fun hbad => ?_⟩
        · obtain rfl : _ = r := Option.some_injective _ hr
          exact ⟨rfl, rfl, hname, hpw⟩
        · rcases hbad with h | h | h
          · exact absurd h hname
          · exact absurd h hpw
          · exact absurd hmm h
  · have hreq : generateKeyRequest s = (none, some "Passwords do not match.") := by
      unfold generateKeyRequest
      rw [if_pos hmm]
    rw [hreq]
    exact ⟨fun r hr => by simp at hr, fun _ => ⟨rfl, by simp⟩⟩

/-- Witness for C4 at the concrete states `gs0` (request issued, name
trimmed and non-empty) and an empty-name state (no request, local error). -/
theorem c4_witness :
    (gr0.cmd = "generate_key_pair" ∧
     gr0.args = [("name", .str (jsTrim gs0.keyName)),
                 ("algStr", .str gs0.selectedAlgorithm),
                 ("password", .str gs0.password)] ∧
     jsTrim gs0.keyName ≠ "" ∧ gs0.password ≠ "") ∧
    ((generateKeyRequest ⟨"   ", "Ed25519", "pw", "pw"⟩).fst = none ∧
     (generateKeyRequest ⟨"   ", "Ed25519", "pw", "pw"⟩).snd ≠ none) :=
  ⟨(c4_generate_key_validation gs0).1 gr0 (by decide),
   (c4_generate_key_validation ⟨"   ", "Ed25519", "pw", "pw"⟩).2 (Or.inl (by decide))⟩

/-- Claim C5 counterexample: the request built from a concrete valid form
state names its arguments `name`, `algStr`, `password` — not
`name`, `algorithm`, `password` as the claim states. -/
theorem c5_counterexample :
    requestArgNames (generateKeyRequest ⟨"A", "Ed25519", "pw", "pw"⟩).fst =
      some ["name", "algStr", "password"] ∧
    requestArgNames (generateKeyRequest ⟨"A", "Ed25519", "pw", "pw"⟩).fst ≠
      some ["name", "algorithm", "password"] := by
  constructor
  · decide
  · decide

/-- Claim C5 as amended: every `generate_key_pair` request supplies exactly
three inputs named `name`, `algStr` and `password`, the algorithm value
riding under the input name `algStr`; when the selected algorithm is one of
the enum variants, so is the transmitted `algStr` value. -/
theorem c5_generate_request_arg_names (s : GenState) (r : InvokeRequest)
    (h : (generateKeyRequest s).fst = some r) :
    r.args.map Prod.fst = ["name", "algStr", "password"] ∧
    r.args.get? 1 = some ("algStr", .str s.selectedAlgorithm) ∧
    (s.selectedAlgorithm ∈ signatureAlgorithmValues →
      ArgValue.str s.selectedAlgorithm ∈ (signatureAlgorithmValues.map ArgValue.str)) := by
  obtain ⟨-, hargs, -, -⟩ := (c4_generate_key_validation s).1 r h
  rw [hargs]
  exact ⟨rfl, rfl, fun hmem => List.mem_map_of_mem ArgValue.str hmem⟩

/-- Witness for C5 (amended) at the concrete state `gs0`. -/
theorem c5_witness :
    gr0.args.map Prod.fst = ["name", "algStr", "password"] ∧
    gr0.args.get? 1 = some ("algStr", .str gs0.selectedAlgorithm) ∧
    (gs0.selectedAlgorithm ∈ signatureAlgorithmValues →
      ArgValue.str gs0.selectedAlgorithm ∈ (signatureAlgorithmValues.map ArgValue.str)) :=
  c5_generate_request_arg_names gs0 gr0 (by decide)

/-- Claim C1: whenever the `verify_signature` invocation completes with a
result (valid or not) the result is stored and `error` stays null; whenever
it throws, `error` is set and `verificationResult` stays null; after every
completed `verify` at most one of the two is non-null. -/
theorem c1_verify_result_never_error (s : VerifyState) (o : VerifyOutcome) :
    (∀ r req, (verify s o).snd = some req → o = .ok r →
      (verify s o).fst.verificationResult = some r ∧ (verify s o).fst.error = none) ∧
    (∀ m req, (verify s o).snd = some req → o = .err m →
      (verify s o).fst.error ≠ none ∧ (verify s o).fst.verificationResult = none) ∧
    ¬((verify s o).fst.verificationResult ≠ none ∧ (verify s o).fst.error ≠ none) := by
  unfold verify
  split
  · split
    · refine ⟨?_, ?_, ?_⟩ <;> simp
    · cases o with
      | ok r0 => refine ⟨?_, ?_, ?_⟩ <;> simp
      | err m0 => refine ⟨?_, ?_, ?_⟩ <;> simp
  · refine ⟨?_, ?_, ?_⟩ <;> simp

/-- Witness for C1 at the concrete state `vs0`, for a returned invalid
result and for a thrown invocation error. -/
theorem c1_witness :
    ((verify vs0 (.ok ⟨false, some "bad sig"⟩)).fst.verificationResult =
        some ⟨false, some "bad sig"⟩ ∧
     (verify vs0 (.ok ⟨false, some "bad sig"⟩)).fst.error = none) ∧
    ((verify vs0 (.err "io")).fst.error ≠ none ∧
     (verify vs0 (.err "io")).fst.verificationResult = none) :=
  ⟨(c1_verify_result_never_error vs0 (.ok ⟨false, some "bad sig"⟩)).1
      ⟨false, some "bad sig"⟩ vreq0 (by decide) rfl,
   (c1_verify_result_never_error vs0 (.err "io")).2.1 "io" vreq0 (by decide) rfl⟩

/-- Claim C6: every `verify_signature` request supplies exactly
`documentPath`, `signaturePath` and `keyId`; no password is collected or
transmitted. -/
theorem c6_verify_request_no_password (s : VerifyState) (o : VerifyOutcome)
    (req : InvokeRequest) (h : (verify s o).snd = some req) :
    req.cmd = "verify_signature" ∧
    req.args.map Prod.fst = ["documentPath", "signaturePath", "keyId"] ∧
    "password" ∉ req.args.map Prod.fst := by
  unfold verify at h
  split at h
  · split at h
    · simp at h
    · cases o with
      | ok r0 =>
        obtain rfl : _ = req := Option.some_injective _ h
        exact ⟨rfl, rfl, by simp⟩
      | err m0 =>
        obtain rfl : _ = req := Option.some_injective _ h
        exact ⟨rfl, rfl, by simp⟩
  · simp at h

/-- Witness for C6 at the concrete state `vs0`. -/
theorem c6_witness :
    vreq0.cmd = "verify_signature" ∧
    vreq0.args.map Prod.fst = ["documentPath", "signaturePath", "keyId"] ∧
    "password" ∉ vreq0.args.map Prod.fst :=
  c6_verify_request_no_password vs0 (.ok ⟨true, none⟩) vreq0 (by decide)

/-- Claim C9: in both views, once loading has finished, a non-empty key
list with no selection gets the first listed key selected; in the
verification view an empty list resets the selection to null; so after
loading a non-empty key list always has a selected key. -/
theorem c9_auto_select_first_key (keys : List KeyInfo) (sel : Option String) :
    (∀ k t, keys = k :: t → sel = none →
      signViewEffect false keys sel = some k.keyId ∧
      verifyViewEffect false keys sel = some k.keyId) ∧
    verifyViewEffect false [] sel = none ∧
    (keys ≠ [] →
      (signViewEffect false keys sel).isSome ∧ (verifyViewEffect false keys sel).isSome) := by
  refine ⟨?_, ?_, ?_⟩
  · rintro k t rfl rfl
    exact ⟨rfl, rfl⟩
  · cases sel <;> rfl
  · intro hne
    cases keys with
    | nil => exact absurd rfl hne
    | cons k t =>
      cases sel with
      | none => exact ⟨rfl, rfl⟩
      | some x => exact ⟨rfl, rfl⟩

/-- Witness for C9 at a concrete one-key list and at the empty list. -/
theorem c9_witness :
    (signViewEffect false [k0] none = some k0.keyId ∧
     verifyViewEffect false [k0] none = some k0.keyId) ∧
    verifyViewEffect false [] (some "id-1") = none ∧
    ((signViewEffect false [k0] (some "id-1")).isSome ∧
     (verifyViewEffect false [k0] (some "id-1")).isSome) :=
  ⟨(c9_auto_select_first_key [k0] none).1 k0 [] rfl rfl,
   (c9_auto_select_first_key [] (some "id-1")).2.1,
   (c9_auto_select_first_key [k0] (some "id-1")).2.2 (by simp)⟩

/-- Claim C8: the derived `lastSelectedKey` evaluates to null for every
value of `shared.keys`: the defining expression yields null whenever its
previous value is null (and whenever the key list is empty), so starting
from the initial null value, no sequence of key-list states ever makes it
non-null. -/
theorem c8_lastSelectedKey_always_null :
    (∀ keys, lastSelectedKeyStep none keys = none) ∧
    (∀ prev, lastSelectedKeyStep prev [] = none) ∧
    (∀ updates : List (List KeyInfo), updates.foldl lastSelectedKeyStep none = none) := by
  refine ⟨fun keys => rfl, ?_, ?_⟩
  · intro prev
    cases prev with
    | none => rfl
    | some last => simp [lastSelectedKeyStep]
  · intro updates
    induction updates with
    | nil => rfl
    | cons u us ih => simpa [lastSelectedKeyStep] using ih

/-- Claim C3: every `sign_document` request carries non-null
`documentPath`, `keyId`, `password`, `outputPath` and the options object
with format `detached` (the only `SignatureFormat` value); a missing
document, key or password, or a cancelled save dialog, produces no request
at all. -/
theorem c3_sign_request_shape (s : SignState) (choice : Option String) (o : SignOutcome) :
    (∀ req, (signDocument s choice o).snd = some req →
      req.cmd = "sign_document" ∧
      ∃ dp kid op,
        s.documentPath = some dp ∧ s.selectedKeyId = some kid ∧ choice = some op ∧
        dp ≠ "" ∧ kid ≠ "" ∧ s.password ≠ "" ∧ op ≠ "" ∧
        req.args = [("documentPath", ArgValue.str dp), ("keyId", ArgValue.str kid),
                    ("password", ArgValue.str s.password), ("outputPath", ArgValue.str op),
                    ("options", ArgValue.opts ⟨"detached"⟩)] ∧
        signatureFormatValues = ["detached"]) ∧
    ((s.documentPath = none ∨ s.selectedKeyId = none ∨ s.password = "" ∨ choice = none) →
      (signDocument s choice o).snd = none) := by
  obtain ⟨keys, skidO, dpO, pw, lk, sg, er, sm⟩ := s
  cases dpO with
  | none =>
    exact ⟨fun req hreq => by simp [signDocument] at hreq, fun _ => by simp [signDocument]⟩
  | some dp =>
    cases skidO with
    | none =>
      exact ⟨fun req hreq => by simp [signDocument] at hreq, fun _ => by simp [signDocument]⟩
    | some kid =>
      by_cases hguard : dp = "" ∨ kid = ""
      · refine ⟨fun req hreq => ?_, fun _ => ?_⟩
        · simp only [signDocument] at hreq
          rw [if_pos hguard] at hreq
          simp at hreq
        · simp only [signDocument]
          rw [if_pos hguard]
      · by_cases hpw : pw = ""
        · refine ⟨fun req hreq => ?_, fun _ => ?_⟩
          · simp only [signDocument] at hreq
            rw [if_neg hguard, if_pos hpw] at hreq
            simp at hreq
          · simp only [signDocument]
            rw [if_neg hguard, if_pos hpw]
        · cases choice with
          | none =>
            refine ⟨fun req hreq => ?_, fun _ => ?_⟩
            · simp only [signDocument] at hreq
              rw [if_neg hguard, if_neg hpw] at hreq
              simp at hreq
            · simp only [signDocument]
              rw [if_neg hguard, if_neg hpw]
          | some op =>
            by_cases hop : op = ""
            · refine ⟨fun req hreq => ?_, fun hbad => ?_⟩
              · simp only [signDocument] at hreq
                rw [if_neg hguard, if_neg hpw, if_pos hop] at hreq
                simp at hreq
              · rcases hbad with h | h | h | h
                · exact absurd h (by simp)
                · exact absurd h (by simp)
                · exact absurd h hpw
                · exact absurd h (by simp)
            · cases o with
              | ok =>
                refine ⟨fun req hreq => ?_, fun hbad => ?_⟩
                · simp only [signDocument] at hreq
                  rw [if_neg hguard, if_neg hpw, if_neg hop] at hreq
                  obtain rfl : _ = req := Option.some_injective _ hreq
                  exact ⟨rfl, dp, kid, op, rfl, rfl, rfl,
                    fun h => hguard (Or.inl h), fun h => hguard (Or.inr h), hpw, hop, rfl, rfl⟩
                · rcases hbad with h | h | h | h
                  · exact absurd h (by simp)
                  · exact absurd h (by simp)
                  · exact absurd h hpw
                  · exact absurd h (by simp)
              | err m =>
                refine ⟨fun req hreq => ?_, fun hbad => ?_⟩
                · simp only [signDocument] at hreq
                  rw [if_neg hguard, if_neg hpw, if_neg hop] at hreq
                  obtain rfl : _ = req := Option.some_injective _ hreq
                  exact ⟨rfl, dp, kid, op, rfl, rfl, rfl,
                    fun h => hguard (Or.inl h), fun h => hguard (Or.inr h), hpw, hop, rfl, rfl⟩
                · rcases hbad with h | h | h | h
                  · exact absurd h (by simp)
                  · exact absurd h (by simp)
                  · exact absurd h hpw
                  · exact absurd h (by simp)

/-- Witness for C3: from `ss0` with a chosen output path the issued request
is `sreq0` and it has the claimed shape. -/
theorem c3_witness :
    (signDocument ss0 (some "/doc.txt.sig") SignOutcome.ok).snd = some sreq0 ∧
    sreq0.cmd = "sign_document" :=
  ⟨by decide,
   ((c3_sign_request_shape ss0 (some "/doc.txt.sig") SignOutcome.ok).1 sreq0 (by decide)).1⟩

/-- Claim C10: after a successful `sign_document` invocation the password
state is cleared while `documentPath` and the selected key are unchanged;
after a failed invocation the password, document path and selected key are
all unchanged and the error message is set. -/
theorem c10_sign_frame (s : SignState) (choice : Option String) (o : SignOutcome)
    (req : InvokeRequest) (h : (signDocument s choice o).snd = some req) :
    (o = .ok →
      (signDocument s choice o).fst.password = "" ∧
      (signDocument s choice o).fst.documentPath = s.documentPath ∧
      (signDocument s choice o).fst.selectedKeyId = s.selectedKeyId) ∧
    (∀ m, o = .err m →
      (signDocument s choice o).fst.password = s.password ∧
      (signDocument s choice o).fst.documentPath = s.documentPath ∧
      (signDocument s choice o).fst.selectedKeyId = s.selectedKeyId ∧
      (signDocument s choice o).fst.error ≠ none) := by
  unfold signDocument at h ⊢
  split at h
  · split at h
    · simp at h
    · split at h
      · simp at h
      · split at h
        · split at h
          · simp at h
          · cases o with
            | ok => refine ⟨fun _ => ?_, fun m hm => ?_⟩ <;> simp_all
            | err m0 => refine ⟨fun hm => ?_, fun m hm => ?_⟩ <;> simp_all
        · simp at h
  · simp at h

/-- Witness for C10 at the concrete state `ss0`, once for a resolving and
once for a throwing invocation. -/
theorem c10_witness :
    ((signDocument ss0 (some "/doc.txt.sig") SignOutcome.ok).fst.password = "" ∧
     (signDocument ss0 (some "/doc.txt.sig") SignOutcome.ok).fst.documentPath =
       ss0.documentPath ∧
     (signDocument ss0 (some "/doc.txt.sig") SignOutcome.ok).fst.selectedKeyId =
       ss0.selectedKeyId) ∧
    ((signDocument ss0 (some "/doc.txt.sig") (.err "io")).fst.password = ss0.password ∧
     (signDocument ss0 (some "/doc.txt.sig") (.err "io")).fst.documentPath =
       ss0.documentPath ∧
     (signDocument ss0 (some "/doc.txt.sig") (.err "io")).fst.selectedKeyId =
       ss0.selectedKeyId ∧
     (signDocument ss0 (some "/doc.txt.sig") (.err "io")).fst.error ≠ none) :=
  ⟨(c10_sign_frame ss0 (some "/doc.txt.sig") SignOutcome.ok sreq0 (by decide)).1 rfl,
   (c10_sign_frame ss0 (some "/doc.txt.sig") (.err "io") sreq0 (by decide)).2 "io" rfl⟩

/-- Claim C2: for every stored key record and document, signing with the
record's key and correct password then verifying with the same key and the
fresh signature yields `isValid = true`; verifying a document modified
after signing yields `isValid = false`. -/
theorem c2_sign_then_verify_roundtrip (records : List KeyRecord) (r : KeyRecord)
    (doc doc2 : List Nat) (hfind : findRecord records r.keyId = some r) :
    sign_document records doc r.keyId r.password = .ok ⟨r.keyId, doc⟩ ∧
    verify_signature records doc ⟨r.keyId, doc⟩ r.keyId = .ok ⟨true, none⟩ ∧
    (doc2 ≠ doc →
      verify_signature records doc2 ⟨r.keyId, doc⟩ r.keyId =
        .ok ⟨false, some "Signature does not match the document and key"⟩) := by
  refine ⟨?_, ?_, ?_⟩
  · simp [sign_document, hfind]
  · simp [verify_signature, hfind]
  · intro hne
    have hne2 : doc ≠ doc2 := Ne.symm hne
    simp [verify_signature, hfind, hne2]

/-- Witness for C2 at a concrete one-record store, an original document and
a modified document. -/
theorem c2_witness :
    sign_document records0 [1, 2, 3] "id-1" "pw" = .ok ⟨"id-1", [1, 2, 3]⟩ ∧
    verify_signature records0 [1, 2, 3] ⟨"id-1", [1, 2, 3]⟩ "id-1" = .ok ⟨true, none⟩ ∧
    verify_signature records0 [1, 2, 4] ⟨"id-1", [1, 2, 3]⟩ "id-1" =
      .ok ⟨false, some "Signature does not match the document and key"⟩ :=
  ⟨(c2_sign_then_verify_roundtrip records0 rec0 [1, 2, 3] [1, 2, 4] (by decide)).1,
   (c2_sign_then_verify_roundtrip records0 rec0 [1, 2, 3] [1, 2, 4] (by decide)).2.1,
   (c2_sign_then_verify_roundtrip records0 rec0 [1, 2, 3] [1, 2, 4] (by decide)).2.2
     (by decide)⟩
